import Mathlib

/-!
Shallow embedding of the DocQuery retrieval core, translated from the
repository sources:

- src/document_processor.py : DocumentProcessor (chunking)
- src/vector_store.py      : VectorStore (embeddings, faiss index, persistence)
- src/chat_manager.py      : ChatManager (RAG orchestration)

External collaborators (faiss exact inner-product index, numpy, the network
embedding/generation backends, the filesystem) are modelled explicitly:
the faiss index as a list of rational vectors with exact top-k inner-product
search (faiss IndexFlat is exact and deterministic), the backends as oracle
function parameters, and the disk as a pair of key-to-artifact maps.
Machine floats are modelled as rationals; claims checked here do not depend
on rounding.
-/

namespace DocQuery

/-! ## Chunker (src/document_processor.py) -/

/-- A chunk record as built in `DocumentProcessor._create_chunks`
(`{'text', 'chunk_id', 'start_word', 'end_word', 'word_count'}`). -/
structure Chunk where
  text : String
  chunk_id : Nat
  start_word : Nat
  end_word : Nat
  word_count : Nat
deriving DecidableEq

/-- The single word separator used by the source (`' '.join(chunk_words)`). -/
def wordSep : String := " "

/-- Python `text.split()`: split on whitespace, dropping empty pieces.
Modelled on the character list with `List.splitOnP` (which splits at every
separator character, producing possibly-empty pieces) followed by the filter
that removes empty pieces; this is exactly the no-argument `str.split`
semantics. -/
def pySplit (s : String) : List String :=
  ((s.data.splitOnP Char.isWhitespace).map String.mk).filter (fun w => w ≠ "")

/-- Python `' '.join(ws)`. -/
def pyJoin (sep : String) : List String → String
  | [] => ""
  | [w] => w
  | w :: ws => w ++ (sep ++ pyJoin sep ws)

/-- Truthiness of Python `s.strip()` as used in `if chunk_text.strip():`.
Stripping whitespace from both ends leaves a non-empty (truthy) string
exactly when some character of `s` is not whitespace, which is the
character-level form used here. -/
def pyStripTruthy (s : String) : Bool :=
  s.data.any (fun c => !c.isWhitespace)

/-- The source's token-to-word conversion `n // 1.3`.  For the only values
the program uses (500 and 50) the float floor-division agrees with the exact
rational floor `⌊10·n/13⌋` computed here (500 ↦ 384, 50 ↦ 38). -/
def tokensToWords (n : Nat) : Nat := (n * 10) / 13

/-- Python `range(0, stop, step)` for `step > 0`: the start indices
`0, step, 2·step, …` that are `< stop`.  For `step = 0` Python raises
`ValueError`; that case is unreachable in the source (the step is the fixed
positive stride 346) and yields `[]` here. -/
def rangeBy (stop step : Nat) : List Nat :=
  (List.range ((stop + step - 1) / step)).map (fun j => j * step)

/-- The loop body of `DocumentProcessor._create_chunks`: for window start
`i`, slice `words[i : i+sizeW]`, join with spaces, and append a chunk record
when the joined text strips to something truthy.  `chunk_id` is the running
count `len(chunks)` at append time. -/
def chunkStep (sizeW : Nat) (words : List String) (acc : List Chunk) (i : Nat) : List Chunk :=
  let chunkWords := (words.drop i).take sizeW
  let chunkText := pyJoin wordSep chunkWords
  if pyStripTruthy chunkText then
    acc ++ [{ text := chunkText
              chunk_id := acc.length
              start_word := i
              end_word := min (i + sizeW) words.length
              word_count := chunkWords.length }]
  else acc

/-- The loop of `DocumentProcessor._create_chunks`:
`for i in range(0, len(words), stride)` over the loop body above,
accumulating into `chunks = []`. -/
def createChunksFromWords (sizeW stride : Nat) (words : List String) : List Chunk :=
  (rangeBy words.length stride).foldl (chunkStep sizeW words) []

/-- State of `DocumentProcessor`: the two hard-coded token parameters set in
`__init__` (`self.chunk_size = 500`, `self.chunk_overlap = 50`). -/
structure DocumentProcessor where
  chunk_size : Nat
  chunk_overlap : Nat
deriving DecidableEq

/-- The spec's `ConfigError` error kind.  No such class (nor any raise at
construction) exists in the source; the type is introduced only so the
claimed construction-time failure channel can be stated. -/
structure ConfigError
deriving DecidableEq

/-- Model of `DocumentProcessor.__init__`: assigns the two constants and nothing
else — no parameters, no validation, no raise.  The result type exposes the
failure channel the spec claims; the source constructor always succeeds. -/
def DocumentProcessor.init : Except ConfigError DocumentProcessor :=
  Except.ok { chunk_size := 500, chunk_overlap := 50 }

/-- The processor every construction yields. -/
def docProcessor : DocumentProcessor := { chunk_size := 500, chunk_overlap := 50 }

/-- Model of `DocumentProcessor._create_chunks`: word-split the text, convert the
token parameters to word counts, and emit overlapping windows with stride
`int(chunk_size_words - overlap_words)`. -/
def DocumentProcessor.createChunks (p : DocumentProcessor) (text : String) : List Chunk :=
  let words := pySplit text
  let sizeW := tokensToWords p.chunk_size
  let overlapW := tokensToWords p.chunk_overlap
  createChunksFromWords sizeW (sizeW - overlapW) words

/-! ## Vector store (src/vector_store.py) -/

/-- The two embedding providers (`provider` argument of `VectorStore.__init__`). -/
inductive Provider
  | openai
  | google
deriving DecidableEq

/-- Document metadata as produced by `DocumentProcessor.process_document` and
stamped by `VectorStore.add_document` (`metadata['provider'] = self.provider`).
`provider := none` models the dict before the key is written. -/
structure Metadata where
  id : String
  filename : String
  file_type : String
  processed_date : String
  total_chars : Nat
  total_chunks : Nat
  provider : Option Provider
deriving DecidableEq

/-- An embedding vector: floats modelled as rationals. -/
abbrev Vec := List ℚ

/-- Inner product of two vectors (faiss `IndexFlatIP` scoring). -/
def dot (v w : Vec) : ℚ := (List.zipWith (fun a b => a * b) v w).sum

/-- A `faiss.IndexFlatIP`: the declared dimension and the stored rows
(row i holds the embedding of chunk i). -/
structure FaissIndex where
  dim : Nat
  rows : List Vec
deriving DecidableEq

/-- faiss `ntotal`: the number of stored vectors. -/
def FaissIndex.ntotal (ix : FaissIndex) : Nat := ix.rows.length

/-- The score faiss reports for padding entries when fewer than `k` vectors
exist: the lowest representable float32 (`-FLT_MAX`). -/
def sentinelScore : ℚ := -340282346638528859811704183484516925440

/-- Insert a (label, score) pair into a list sorted by non-increasing score,
after any earlier pair of equal score. -/
def insertDesc (p : Int × ℚ) : List (Int × ℚ) → List (Int × ℚ)
  | [] => [p]
  | q :: t => if q.2 < p.2 then p :: q :: t else q :: insertDesc p t

/-- Sort (label, score) pairs by non-increasing score; ties keep the earlier
label first (faiss exact search is deterministic; the claims checked here do
not depend on its tie order). -/
def sortDesc (l : List (Int × ℚ)) : List (Int × ℚ) := l.foldr insertDesc []

/-- Label the elements of a list with consecutive indices starting at `n`. -/
def enumFrom (n : Nat) : List Vec → List (Nat × Vec)
  | [] => []
  | v :: t => (n, v) :: enumFrom (n + 1) t

/-- Model of `faiss.IndexFlat.search` for one query: score every stored row by inner
product, order by descending score, and return exactly `k` entries, padding
with label `-1` and the sentinel score when fewer than `k` rows exist. -/
def FaissIndex.search (ix : FaissIndex) (q : Vec) (k : Nat) : List (Int × ℚ) :=
  let scored := (enumFrom 0 ix.rows).map (fun p => ((p.1 : Int), dot q p.2))
  (sortDesc scored ++ List.replicate k ((-1 : Int), sentinelScore)).take k

/-- Process environment: which API keys are set, and whether the
`google.generativeai` import succeeded (`genai` is not `None`). -/
structure Env where
  openaiKey : Bool
  geminiKey : Bool
  genaiAvailable : Bool
deriving DecidableEq

/-- Whether the environment can (re-)initialize the backend client of a
provider, as checked in `__init__` and `load_document`. -/
def Env.hasKey (env : Env) : Provider → Bool
  | .openai => env.openaiKey
  | .google => env.geminiKey && env.genaiAvailable

/-- Errors raised inside `VectorStore` methods.  The source raises plain
`Exception`s with message strings (and faiss raises an assertion on a
query/index dimension mismatch); this enum records the failure kind, and
`VSError.message` the user-visible text. -/
inductive VSError
  | notConfigured
  | dimensionMismatch
  | indexError
  | backendError (msg : String)
deriving DecidableEq

/-- Message text carried by the re-raised exception. -/
def VSError.message : VSError → String
  | .notConfigured => "API key not configured. Please set your API key."
  | .dimensionMismatch => "query dimension does not match index dimension"
  | .indexError => "list index out of range"
  | .backendError msg => msg

/-- State of `VectorStore`: provider selection, fixed embedding dimension,
backend clients (`True` = initialized), the faiss index, chunks and
metadata.  `index := none` models `self.index = None`, `metadata := none`
the initial empty dict. -/
structure VectorStore where
  provider : Provider
  dimension : Nat
  openai_client : Bool
  google_client : Bool
  index : Option FaissIndex
  chunks : List Chunk
  metadata : Option Metadata
deriving DecidableEq

/-- Model of `VectorStore.__init__`: select the provider, fix its dimension (1536 for
openai ada-002, 768 for the Google model), and initialize the provider's
client when its credential is available. -/
def VectorStore.init (env : Env) (provider : Provider) : VectorStore :=
  match provider with
  | .openai =>
      { provider := .openai, dimension := 1536
        openai_client := env.openaiKey, google_client := false
        index := none, chunks := [], metadata := none }
  | .google =>
      { provider := .google, dimension := 768
        openai_client := false, google_client := env.geminiKey && env.genaiAvailable
        index := none, chunks := [], metadata := none }

/-- The `if self.provider == ... and not self.*_client` guard used by
`add_document` and `search`. -/
def VectorStore.configured (s : VectorStore) : Bool :=
  match s.provider with
  | .openai => s.openai_client
  | .google => s.google_client

/-- Model of `VectorStore._generate_embeddings`, parameterized by the backends:
`emb` is one backend embedding call (the openai path batches texts in groups
of at most 100 and concatenates the per-batch results in input order, which
is exactly `texts.map emb`; the google path embeds one text at a time),
`rand seed n` models `np.random.seed(seed)` followed by `np.random.rand(n)`,
`md5int` models `int(md5(text).hexdigest(), 16)`, and `backendOk` tells
whether the google embedding API call succeeds.  The returned flag records
whether `st.warning` fired (degraded mode).

In the google fallback path the source computes the hash-seeded
pseudo-embeddings into a local list but the `except` block has no `return`
statement, so control falls through to the trailing
`return np.array([], dtype=np.float32)`: the computed list is discarded and
the empty matrix is returned. -/
def VectorStore.generate_embeddings (s : VectorStore)
    (emb : String → Vec) (rand : Nat → Nat → Vec) (md5int : String → Nat)
    (backendOk : Bool) (texts : List String) : Except VSError (List Vec × Bool) :=
  match s.provider with
  | .openai =>
      if s.openai_client then Except.ok (texts.map emb, false)
      else Except.error VSError.notConfigured
  | .google =>
      if s.google_client then
        if backendOk then Except.ok (texts.map emb, false)
        else
          let pseudo := texts.map (fun t => rand (md5int t % 1000000) s.dimension)
          have _ : List Vec := pseudo
          Except.ok ([], true)
      else Except.error VSError.notConfigured

/-- The on-disk artifacts under `data/vectors/`: `{id}.faiss` (the serialized
index) and `{id}.pkl` (the pickled `{'chunks': ..., 'metadata': ...}` dict),
as maps from document id to artifact. -/
structure Disk where
  faiss : String → Option FaissIndex
  pkl : String → Option (List Chunk × Option Metadata)

/-- A disk holding no artifacts. -/
def emptyDisk : Disk := { faiss := fun _ => none, pkl := fun _ => none }

/-- Model of `VectorStore._save_to_disk`: write the faiss file only when an index
exists (a pre-existing file for the same id is otherwise left as it was),
and always write the pickle with the current chunks and metadata. -/
def VectorStore.save_to_disk (s : VectorStore) (documentId : String) (d : Disk) : Disk :=
  { faiss := fun id =>
      if id = documentId then
        match s.index with
        | some ix => some ix
        | none => d.faiss id
      else d.faiss id
    pkl := fun id =>
      if id = documentId then some (s.chunks, s.metadata) else d.pkl id }

/-- Model of `VectorStore.add_document`: check the client, embed the chunk texts,
build a fresh `IndexFlatIP(self.dimension)` over the L2-normalized rows
(`nrm` is `faiss.normalize_L2` on one row; the claims below never depend on
the normalized values, only on shapes), store chunks and metadata, stamp
`metadata['provider']`, and save to disk under `metadata['id']`.  The row
length check models faiss's shape assertion on `add`. -/
def VectorStore.add_document (s : VectorStore)
    (nrm : Vec → Vec) (emb : String → Vec) (rand : Nat → Nat → Vec)
    (md5int : String → Nat) (backendOk : Bool)
    (chunks : List Chunk) (md : Metadata) (d : Disk) :
    Except VSError (VectorStore × Disk) :=
  if s.configured then
    match s.generate_embeddings emb rand md5int backendOk (chunks.map (fun c => c.text)) with
    | Except.error e => Except.error e
    | Except.ok (embeddings, _warn) =>
        let rows := embeddings.map nrm
        if rows.all (fun v => v.length = s.dimension) then
          let ix : FaissIndex := { dim := s.dimension, rows := rows }
          let md1 := { md with provider := some s.provider }
          let s1 := { s with index := some ix, chunks := chunks, metadata := some md1 }
          Except.ok (s1, s1.save_to_disk md.id d)
        else Except.error VSError.dimensionMismatch
  else Except.error VSError.notConfigured

/-- Model of `VectorStore.load_document`: read the faiss file if it exists, read the
pickle if it exists (each guarded independently by `os.path.exists`; a
missing artifact is silently skipped), and, when the loaded metadata records
a provider, switch to it and re-initialize that provider's client if its
credential is available.  Nothing in the source raises for a missing
document, so every path returns `ok`. -/
def VectorStore.load_document (s : VectorStore) (env : Env) (d : Disk)
    (documentId : String) : Except VSError VectorStore :=
  let s1 := match d.faiss documentId with
            | some ix => { s with index := some ix }
            | none => s
  match d.pkl documentId with
  | none => Except.ok s1
  | some (chunks, md) =>
      let s2 := { s1 with chunks := chunks, metadata := md }
      match md with
      | none => Except.ok s2
      | some m =>
          match m.provider with
          | none => Except.ok s2
          | some p =>
              let s3 := { s2 with provider := p }
              match p with
              | .openai =>
                  Except.ok (if env.openaiKey then { s3 with openai_client := true } else s3)
              | .google =>
                  Except.ok (if env.geminiKey && env.genaiAvailable then
                               { s3 with google_client := true } else s3)

/-- Python list indexing `chunks[i]` with an `int` index: negative indices
count from the end; an out-of-range index raises `IndexError` (`none`). -/
def pyGet (l : List Chunk) (i : Int) : Option Chunk :=
  let j := if i < 0 then i + l.length else i
  if 0 ≤ j then l[j.toNat]? else none

/-- The result loop of `VectorStore.search`:
`for score, idx in zip(scores[0], indices[0]): if idx < len(self.chunks):
results.append((self.chunks[idx], float(score)))`.  The comparison is on the
signed faiss label, so the padding label `-1` passes the test and is then
resolved by Python's negative indexing; on an empty chunk list `chunks[-1]`
raises `IndexError`. -/
def collectResults (chunks : List Chunk) : List (Int × ℚ) → Except VSError (List (Chunk × ℚ))
  | [] => Except.ok []
  | (i, sc) :: rest =>
      if i < (chunks.length : Int) then
        match pyGet chunks i with
        | some c =>
            match collectResults chunks rest with
            | Except.ok r => Except.ok ((c, sc) :: r)
            | Except.error e => Except.error e
        | none => Except.error VSError.indexError
      else collectResults chunks rest

/-- Model of `VectorStore.search`: return `[]` when no index is built; check the
client; embed the query (a one-row matrix) and normalize it; let faiss
search check the query width against the index dimension (its shape
assertion, surfaced as a dimension error) and return `k` (score, label)
pairs; then run the result loop.  An embedding matrix that is not one row
(the google fallback returns the empty matrix) also fails faiss's shape
assertion. -/
def VectorStore.search (s : VectorStore)
    (nrm : Vec → Vec) (emb : String → Vec) (rand : Nat → Nat → Vec)
    (md5int : String → Nat) (backendOk : Bool)
    (query : String) (k : Nat) : Except VSError (List (Chunk × ℚ)) :=
  match s.index with
  | none => Except.ok []
  | some ix =>
      if s.configured then
        match s.generate_embeddings emb rand md5int backendOk [query] with
        | Except.error e => Except.error e
        | Except.ok (qm, _warn) =>
            match qm.map nrm with
            | [q] =>
                if q.length = ix.dim then collectResults s.chunks (ix.search q k)
                else Except.error VSError.dimensionMismatch
            | _ => Except.error VSError.dimensionMismatch
      else Except.error VSError.notConfigured

/-! ## Chat manager (src/chat_manager.py) -/

/-- One entry of the chat history consumed by `get_follow_up_response`. -/
structure ChatMessage where
  role : String
  content : String
deriving DecidableEq

/-- The dict returned by `get_response` / `get_follow_up_response`.  The
source returns `{'answer', 'sources'}` on the early and error paths and adds
`'context_used'` only on the generation path; `context_used := none` models
the missing key. -/
structure ChatResult where
  answer : String
  sources : List String
  context_used : Option Nat
deriving DecidableEq

/-- State of `ChatManager` from `__init__`: provider, backend clients, and the
selected generation model (`none` when the credential is missing). -/
structure ChatManager where
  provider : Provider
  openai_client : Bool
  google_client : Bool
  model : Option String
deriving DecidableEq

/-- Model of `ChatManager.__init__`. -/
def ChatManager.init (env : Env) (provider : Provider) : ChatManager :=
  match provider with
  | .openai =>
      if env.openaiKey then
        { provider := .openai, openai_client := true, google_client := false
          model := some ("gpt-5") }
      else
        { provider := .openai, openai_client := false, google_client := false
          model := none }
  | .google =>
      if env.geminiKey && env.genaiAvailable then
        { provider := .google, openai_client := false, google_client := true
          model := some ("gemini-2.5-flash") }
      else
        { provider := .google, openai_client := false, google_client := false
          model := none }

/-- The early `if self.provider == ... and not self.*_client` guard. -/
def ChatManager.configured (cm : ChatManager) : Bool :=
  match cm.provider with
  | .openai => cm.openai_client
  | .google => cm.google_client

/-- Early-return answer when the provider's key is missing. -/
def msgKeyMissing : Provider → String
  | .openai => "OpenAI API key not configured. Please set your API key in the settings."
  | .google => "Google Gemini API key not configured. Please set your API key in the settings."

/-- The fixed no-information answer of `get_response`. -/
def msgNoInfo : String :=
  "I couldn't find relevant information in the document to answer your question."

/-- The `except` handler's answer: the orchestrator converts any raised
exception into this user-safe string. -/
def msgCaught (e : VSError) : String :=
  "I encountered an error while processing your question: " ++ e.message

/-- Python `text[:100]` (character slice). -/
def pyTake (s : String) (n : Nat) : String := String.mk (s.data.take n)

/-- One source citation:
`f"Chunk {chunk['chunk_id']}: \"{chunk['text'][:100]}...\" (Relevance: {score:.2f})"`.
`fmtScore` renders the two-decimal float. -/
def formatSource (fmtScore : ℚ → String) (c : Chunk) (score : ℚ) : String :=
  "Chunk " ++ toString c.chunk_id ++ ": \"" ++ pyTake c.text 100 ++
    "...\" (Relevance: " ++ fmtScore score ++ ")"

/-- Paragraph separator used for the context block (`"\n\n".join`). -/
def paraSep : String := "\n\n"

/-- The system prompt of `get_response`. -/
def mkSystemPrompt (filename context : String) : String :=
  "You are an AI assistant helping users understand a document titled \"" ++
    filename ++ "\".\n\n" ++
    "You will be provided with relevant excerpts from the document and a user question. Your task is to:\n" ++
    "1. Answer the question based ONLY on the provided context\n" ++
    "2. Be accurate and specific\n" ++
    "3. If the context doesn't contain enough information to answer the question, say so clearly\n" ++
    "4. Cite specific parts of the context when possible\n" ++
    "5. Keep your answer concise but comprehensive\n\n" ++
    "Document context:\n" ++ context ++ "\n\n" ++
    "Remember: Only use information from the provided context. Do not add information from your general knowledge."

/-- The system prompt of `get_follow_up_response`. -/
def mkFollowUpPrompt (filename history context : String) : String :=
  "You are an AI assistant helping users understand a document titled \"" ++
    filename ++ "\".\n\n" ++
    "Previous conversation:\n" ++ history ++ "\n\n" ++
    "Current document context:\n" ++ context ++ "\n\n" ++
    "Answer the user's follow-up question based on the document context and previous conversation. Maintain consistency with previous responses while providing accurate information from the document."

/-- History rendering of `get_follow_up_response`: the last five messages,
each as a `User:`/`Assistant:` line (other roles contribute nothing). -/
def renderHistory (hist : List ChatMessage) : String :=
  ((hist.drop (hist.length - 5)).map
    (fun m =>
      if m.role = "user" then "User: " ++ m.content ++ "\n"
      else if m.role = "assistant" then "Assistant: " ++ m.content ++ "\n"
      else "")).foldl (fun a b => a ++ b) ""

/-- Python `answer_text or default` on an `Optional[str]`:
`None` and the empty string are falsy. -/
def pyOrDefault (a : Option String) (dflt : String) : String :=
  match a with
  | some s => if s = "" then dflt else s
  | none => dflt

/-- The generation step shared by both chat methods, given the retrieval
results.  `genChat system user` models the openai chat-completions call
(returning the optional `message.content`, or an exception message);
`genContent prompt` models the google `generate_content` call (returning
`response.text`).  The returned flag records whether a generator backend was
actually invoked.  The openai call sits directly inside the outer `try`, so
its exception reaches the outer handler; the google call is wrapped in an
inner `try/except` that turns the exception text into the answer and then
falls through to the normal return (sources kept). -/
def generateAnswer (cm : ChatManager)
    (genChat : String → String → Except String (Option String))
    (genContent : String → Except String String)
    (systemPrompt userMsg : String) : Except VSError (String × Bool) :=
  match cm.provider with
  | .openai =>
      if cm.openai_client && cm.model.isSome then
        match genChat systemPrompt userMsg with
        | Except.ok content => Except.ok (pyOrDefault content ("No response generated."), true)
        | Except.error e => Except.error (VSError.backendError e)
      else Except.ok ("OpenAI not properly configured.", false)
  | .google =>
      if cm.google_client && cm.model.isSome then
        match genContent (systemPrompt ++ "\n\n" ++ userMsg) with
        | Except.ok text =>
            Except.ok (if text = "" then "I couldn't generate a response." else text, true)
        | Except.error e => Except.ok ("Google Gemini error: " ++ e, true)
      else Except.ok ("Google Gemini not properly configured.", false)

/-- Model of `ChatManager.get_response`: the RAG answer path.  Returns the result
record together with a flag telling whether a generator backend was invoked.
The body of the source's `try` is assembled from the search and generation
steps; any exception escaping it is caught and converted into the user-safe
answer with empty sources (and no `context_used` key). -/
def ChatManager.get_response (cm : ChatManager) (store : VectorStore)
    (nrm : Vec → Vec) (emb : String → Vec) (rand : Nat → Nat → Vec)
    (md5int : String → Nat) (backendOk : Bool)
    (genChat : String → String → Except String (Option String))
    (genContent : String → Except String String)
    (query : String) (docFilename : String)
    (fmtScore : ℚ → String) : ChatResult × Bool :=
  if !cm.configured then
    ({ answer := msgKeyMissing cm.provider, sources := [], context_used := none }, false)
  else
    match store.search nrm emb rand md5int backendOk query 5 with
    | Except.error e =>
        ({ answer := msgCaught e, sources := [], context_used := none }, false)
    | Except.ok searchResults =>
        if searchResults = [] then
          ({ answer := msgNoInfo, sources := [], context_used := none }, false)
        else
          let contextChunks := searchResults.map (fun p => p.1.text)
          let sources := searchResults.map (fun p => formatSource fmtScore p.1 p.2)
          let context := pyJoin paraSep contextChunks
          let systemPrompt := mkSystemPrompt docFilename context
          match generateAnswer cm genChat genContent systemPrompt ("Question: " ++ query) with
          | Except.ok (answer, invoked) =>
              ({ answer := answer, sources := sources
                 context_used := some contextChunks.length }, invoked)
          | Except.error e =>
              ({ answer := msgCaught e, sources := [], context_used := none }, true)

/-- Model of `ChatManager.get_follow_up_response`: like `get_response` but with the
conversation history folded into the prompt and, crucially, **without** the
empty-results short-circuit: the context is assembled (possibly empty) and
the generator is invoked regardless. -/
def ChatManager.get_follow_up_response (cm : ChatManager)
    (chatHistory : List ChatMessage) (store : VectorStore)
    (nrm : Vec → Vec) (emb : String → Vec) (rand : Nat → Nat → Vec)
    (md5int : String → Nat) (backendOk : Bool)
    (genChat : String → String → Except String (Option String))
    (genContent : String → Except String String)
    (query : String) (docFilename : String)
    (fmtScore : ℚ → String) : ChatResult × Bool :=
  if !cm.configured then
    ({ answer := msgKeyMissing cm.provider, sources := [], context_used := none }, false)
  else
    match store.search nrm emb rand md5int backendOk query 5 with
    | Except.error e =>
        ({ answer := msgCaught e, sources := [], context_used := none }, false)
    | Except.ok searchResults =>
        let contextChunks := searchResults.map (fun p => p.1.text)
        let sources := searchResults.map (fun p => formatSource fmtScore p.1 p.2)
        let context := pyJoin paraSep contextChunks
        let historyText := renderHistory chatHistory
        let systemPrompt := mkFollowUpPrompt docFilename historyText context
        match generateAnswer cm genChat genContent systemPrompt
                ("Follow-up question: " ++ query) with
        | Except.ok (answer, invoked) =>
            ({ answer := answer, sources := sources
               context_used := some contextChunks.length }, invoked)
        | Except.error e =>
            ({ answer := msgCaught e, sources := [], context_used := none }, true)

/-! ## Concrete environments, oracles and fixtures used by the theorems -/

/-- An environment with both credentials present and `genai` importable. -/
def envFull : Env := { openaiKey := true, geminiKey := true, genaiAvailable := true }

/-- An environment with no credentials. -/
def envNone : Env := { openaiKey := false, geminiKey := false, genaiAvailable := false }

/-- A backend that embeds every text to the same 1536-dimensional vector. -/
def embW : String → Vec := fun _ => List.replicate 1536 (1 : ℚ)

/-- A pseudo-random generator oracle: `n` copies of one half. -/
def randHalf : Nat → Nat → Vec := fun _ n => List.replicate n ((1 : ℚ) / 2)

/-- A hash oracle. -/
def md5zero : String → Nat := fun _ => 0

/-- A backend that embeds nothing (never consulted on the paths using it). -/
def embZero : String → Vec := fun _ => []

/-- A chat-completions generator oracle that always answers `G`. -/
def genW : String → String → Except String (Option String) :=
  fun _ _ => Except.ok (some "G")

/-- A `generate_content` generator oracle that always answers `G`. -/
def genCW : String → Except String String := fun _ => Except.ok "G"

/-- A score formatter oracle. -/
def fmtW : ℚ → String := fun _ => "0.00"

/-- First basis vector of dimension 768 (a unit vector, so `normalize_L2`
acts as the identity on it). -/
def e0g : Vec := 1 :: List.replicate 767 0

/-- Second basis vector of dimension 768. -/
def e1g : Vec := 0 :: 1 :: List.replicate 766 0

/-- A first stored chunk. -/
def chunkA : Chunk :=
  { text := "A", chunk_id := 0, start_word := 0, end_word := 1, word_count := 1 }

/-- A second stored chunk. -/
def chunkB : Chunk :=
  { text := "B", chunk_id := 1, start_word := 1, end_word := 2, word_count := 1 }

/-- A google-style backend embedding the two chunk texts to the two basis
vectors (and any query to the first). -/
def embG : String → Vec := fun t => if t = "B" then e1g else e0g

/-- Metadata for the two-chunk document. -/
def mdG : Metadata :=
  { id := "doc1", filename := "f.pdf", file_type := "pdf"
    processed_date := "2026-01-01T00:00:00", total_chars := 3, total_chunks := 2
    provider := none }

/-- Metadata for a one-chunk document (round-trip witness). -/
def mdW : Metadata :=
  { id := "doc2", filename := "g.md", file_type := "md"
    processed_date := "2026-01-02T00:00:00", total_chars := 1, total_chunks := 1
    provider := none }

/-- A store whose loaded index has dimension 768 while its provider embeds
1536-dimensional queries (the cross-provider situation). -/
def storeMismatch : VectorStore :=
  { VectorStore.init envFull Provider.openai with
      index := some { dim := 768, rows := [List.replicate 768 (1 : ℚ)] }
      chunks := [chunkA] }

/-- Running `add_document` followed by `load_document` of the same id on a second
store instance: the persistence round trip of claim C3. -/
def roundTrip (s s0 : VectorStore) (env : Env)
    (nrm : Vec → Vec) (emb : String → Vec) (rand : Nat → Nat → Vec)
    (md5int : String → Nat) (backendOk : Bool)
    (chunks : List Chunk) (md : Metadata) (d : Disk) : Except VSError VectorStore :=
  match s.add_document nrm emb rand md5int backendOk chunks md d with
  | Except.error e => Except.error e
  | Except.ok (_, d1) => s0.load_document env d1 md.id

/-- A three-word text. -/
def textW3 : String := "alpha beta gamma"

/-- The single chunk the processor emits for `textW3`. -/
def chunkW3 : Chunk :=
  { text := "alpha beta gamma", chunk_id := 0, start_word := 0, end_word := 3, word_count := 3 }

/-- Character list spelling the word `a` then a space, `n` times. -/
def charsK : Nat → List Char
  | 0 => []
  | n + 1 => 'a' :: ' ' :: charsK n

/-- A concrete 1000-word text (1000 copies of the word `a`). -/
def textK : String := String.mk (charsK 1000)

/-- The store produced by adding the two-chunk document to a fresh google
store: index over the two basis rows, chunks stored, provider stamped. -/
def s1G : VectorStore :=
  { VectorStore.init envFull Provider.google with
      index := some { dim := 768, rows := [e0g, e1g] }
      chunks := [chunkA, chunkB]
      metadata := some { mdG with provider := some Provider.google } }

/-! ## Theorems -/

set_option maxRecDepth 40000

/-- Unfolding of the inner product on a cons cell. -/
lemma dot_cons (a b : ℚ) (v w : Vec) : dot (a :: v) (b :: w) = a * b + dot v w := by
  simp [dot]

/-- A zero vector contributes nothing to an inner product. -/
lemma dot_zero_left : ∀ (n : Nat) (v : Vec), dot (List.replicate n 0) v = 0 := by
  intro n
  induction n with
  | zero => intro v; simp [dot]
  | succ m ih =>
      intro v
      cases v with
      | nil => simp [dot]
      | cons b t => rw [List.replicate_succ, dot_cons, ih t]; ring

/-- The first basis vector has unit self inner product. -/
lemma dot_e0g_e0g : dot e0g e0g = 1 := by
  rw [e0g, dot_cons, dot_zero_left]; norm_num

/-- The two basis vectors are orthogonal. -/
lemma dot_e0g_e1g : dot e0g e1g = 0 := by
  rw [e0g, e1g, dot_cons, dot_zero_left]; norm_num

/-- Evaluation of `add_document` on the two-chunk document. -/
lemma add_eval :
    (VectorStore.init envFull Provider.google).add_document id embG randHalf md5zero true
      [chunkA, chunkB] mdG emptyDisk = Except.ok (s1G, s1G.save_to_disk mdG.id emptyDisk) := by
  rfl

/-- Evaluation of the faiss search over the two-row index: two real results
followed by three padding entries. -/
lemma faiss_eval :
    FaissIndex.search { dim := 768, rows := [e0g, e1g] } e0g 5 =
      [(0, 1), (1, 0), (-1, sentinelScore), (-1, sentinelScore), (-1, sentinelScore)] := by
  simp [FaissIndex.search, enumFrom, sortDesc, insertDesc, dot_e0g_e0g, dot_e0g_e1g,
    List.replicate, List.take]

/-- Evaluation of `VectorStore.search` on the loaded two-chunk store: the
three faiss padding entries pass the `idx < len(chunks)` filter and resolve
to the last chunk by negative indexing. -/
lemma search_eval :
    s1G.search id embG randHalf md5zero true ("A") 5 =
      Except.ok [(chunkA, 1), (chunkB, 0), (chunkB, sentinelScore),
                 (chunkB, sentinelScore), (chunkB, sentinelScore)] := by
  have hq : embG ("A") = e0g := rfl
  have hlen : e0g.length = 768 := by simp [e0g]
  simp only [VectorStore.search, s1G]
  simp only [VectorStore.configured, VectorStore.generate_embeddings, VectorStore.init]
  simp [hq, hlen, faiss_eval, collectResults, pyGet, envFull]

/-- Searching the cross-dimension store fails with the dimension error, for
any `k`. -/
lemma storeMismatch_search_eval (k : Nat) :
    storeMismatch.search id embW randHalf md5zero true ("q") k =
      Except.error VSError.dimensionMismatch := by
  have hlen : (embW ("q")).length = 1536 := by
    rw [embW, List.length_replicate]
  simp [VectorStore.search, storeMismatch, VectorStore.configured,
    VectorStore.generate_embeddings, VectorStore.init, envFull, hlen]

/-- C1: the claim says `search` with `k = 5` on an index holding 2 vectors
returns exactly 2 pairs with scores in `[-1, 1]` and valid indices.  The
code instead returns 5 pairs: faiss pads the missing 3 results with label
`-1` and the sentinel score, the filter `idx < len(self.chunks)` passes
`-1`, and Python's negative indexing resolves `chunks[-1]` to the last
chunk, so three spurious `(last chunk, -FLT_MAX)` pairs are appended. -/
theorem C1_code_eval :
    (match (VectorStore.init envFull Provider.google).add_document id embG randHalf md5zero
        true [chunkA, chunkB] mdG emptyDisk with
     | Except.ok (s1, _) => s1.search id embG randHalf md5zero true ("A") 5
     | Except.error e => Except.error e) =
    Except.ok [(chunkA, 1), (chunkB, 0), (chunkB, sentinelScore),
               (chunkB, sentinelScore), (chunkB, sentinelScore)] := by
  rw [add_eval]
  exact search_eval

/-- C2: when the embedded query vector's dimension differs from the loaded
index's dimension, `search` fails with the dimension error (faiss's shape
assertion, surfaced through the method's exception path) and never returns
a result list. -/
theorem C2_dimension_guard (s : VectorStore) (ix : FaissIndex)
    (nrm : Vec → Vec) (emb : String → Vec) (rand : Nat → Nat → Vec)
    (md5int : String → Nat) (backendOk : Bool) (query : String) (k : Nat)
    (qv : Vec) (warn : Bool)
    (hix : s.index = some ix)
    (hconf : s.configured = true)
    (hemb : s.generate_embeddings emb rand md5int backendOk [query] = Except.ok ([qv], warn))
    (hdim : (nrm qv).length ≠ ix.dim) :
    s.search nrm emb rand md5int backendOk query k = Except.error VSError.dimensionMismatch := by
  simp [VectorStore.search, hix, hconf, hemb, hdim]

/-- Witness for C2 at a concrete cross-provider store: a 1536-dimensional
query embedding against a 768-dimensional index. -/
theorem C2_witness :
    storeMismatch.search id embW randHalf md5zero true ("q") 7 =
      Except.error VSError.dimensionMismatch :=
  C2_dimension_guard storeMismatch
    { dim := 768, rows := [List.replicate 768 (1 : ℚ)] }
    id embW randHalf md5zero true ("q") 7 (embW ("q")) false
    rfl rfl rfl (by rw [id_eq, embW, List.length_replicate]; decide)

/-- C3: a document saved through `add_document` and reloaded through
`load_document` on any second store instance yields chunks and metadata
equal to what was saved (the metadata being the original stamped with the
saving provider), with `total_chunks = len(chunks) = index row count`, the
provider re-derived from the stored metadata, and that provider's client
re-initialized (the store is again `configured`). -/
theorem C3_round_trip (s s0 : VectorStore) (env : Env)
    (nrm : Vec → Vec) (emb : String → Vec) (rand : Nat → Nat → Vec)
    (md5int : String → Nat) (backendOk : Bool)
    (chunks : List Chunk) (md : Metadata) (d : Disk)
    (hconf : s.configured = true)
    (hkey : env.hasKey s.provider = true)
    (hbk : s.provider = Provider.google → backendOk = true)
    (hlen : ∀ t : String, (nrm (emb t)).length = s.dimension)
    (htc : md.total_chunks = chunks.length) :
    ∃ s2, roundTrip s s0 env nrm emb rand md5int backendOk chunks md d = Except.ok s2 ∧
      s2.chunks = chunks ∧
      s2.metadata = some { md with provider := some s.provider } ∧
      s2.provider = s.provider ∧
      s2.configured = true ∧
      (∃ ix, s2.index = some ix ∧ ix.ntotal = chunks.length) ∧
      md.total_chunks = chunks.length := by
  have hall : (((chunks.map (fun c => c.text)).map emb).map nrm).all
      (fun v => v.length = s.dimension) = true := by
    rw [List.all_eq_true]
    intro v hv
    simp only [List.mem_map] at hv
    obtain ⟨w, ⟨t, ht, rfl⟩, rfl⟩ := hv
    simp [hlen]
  cases hp : s.provider with
  | openai =>
      have hcl : s.openai_client = true := by
        simpa [VectorStore.configured, hp] using hconf
      have hok : env.openaiKey = true := by
        simpa [Env.hasKey, hp] using hkey
      have hemb : s.generate_embeddings emb rand md5int backendOk
          (chunks.map (fun c => c.text)) =
          Except.ok ((chunks.map (fun c => c.text)).map emb, false) := by
        simp [VectorStore.generate_embeddings, hp, hcl]
      refine ⟨{ s0 with
          index := some { dim := s.dimension
                          rows := ((chunks.map (fun c => c.text)).map emb).map nrm }
          chunks := chunks
          metadata := some { md with provider := some Provider.openai }
          provider := Provider.openai
          openai_client := true }, ?_, rfl, rfl, rfl, ?_, ?_, htc⟩
      · simp only [roundTrip, VectorStore.add_document, hconf, if_true, hemb, hall, hp]
        simp only [VectorStore.load_document, VectorStore.save_to_disk]
        simp [hok]
      · simp [VectorStore.configured]
      · exact ⟨_, rfl, by simp [FaissIndex.ntotal]⟩
  | google =>
      have hcl : s.google_client = true := by
        simpa [VectorStore.configured, hp] using hconf
      have hok : (env.geminiKey && env.genaiAvailable) = true := by
        simpa [Env.hasKey, hp] using hkey
      have hbk2 : backendOk = true := hbk hp
      have hemb : s.generate_embeddings emb rand md5int backendOk
          (chunks.map (fun c => c.text)) =
          Except.ok ((chunks.map (fun c => c.text)).map emb, false) := by
        simp [VectorStore.generate_embeddings, hp, hcl, hbk2]
      refine ⟨{ s0 with
          index := some { dim := s.dimension
                          rows := ((chunks.map (fun c => c.text)).map emb).map nrm }
          chunks := chunks
          metadata := some { md with provider := some Provider.google }
          provider := Provider.google
          google_client := true }, ?_, rfl, rfl, rfl, ?_, ?_, htc⟩
      · simp only [roundTrip, VectorStore.add_document, hconf, if_true, hemb, hall, hp]
        simp only [VectorStore.load_document, VectorStore.save_to_disk]
        simp [hok]
      · simp [VectorStore.configured]
      · exact ⟨_, rfl, by simp [FaissIndex.ntotal]⟩

/-- Witness for C3: a one-chunk document saved by an openai store and
reloaded into a store that was initialized for google; the loaded store
switches back to openai and is immediately configured. -/
theorem C3_witness :
    ∃ s2, roundTrip (VectorStore.init envFull Provider.openai)
        (VectorStore.init envFull Provider.google) envFull id embW randHalf md5zero true
        [chunkA] mdW emptyDisk = Except.ok s2 ∧
      s2.chunks = [chunkA] ∧
      s2.metadata = some { mdW with provider := some Provider.openai } ∧
      s2.provider = Provider.openai ∧
      s2.configured = true ∧
      (∃ ix, s2.index = some ix ∧ ix.ntotal = ([chunkA] : List Chunk).length) ∧
      mdW.total_chunks = ([chunkA] : List Chunk).length :=
  C3_round_trip (VectorStore.init envFull Provider.openai)
    (VectorStore.init envFull Provider.google) envFull id embW randHalf md5zero true
    [chunkA] mdW emptyDisk rfl rfl (fun _ => rfl)
    (fun t => by rw [id_eq, embW, List.length_replicate]; rfl) rfl

/-- C4 counterexample: loading a document id with no persisted artifacts
does not fail at all — both `os.path.exists` guards are false, nothing is
raised, and the store is returned unchanged (no `NotFoundError` exists
anywhere in the source). -/
theorem C4_counterexample :
    (VectorStore.init envFull Provider.openai).load_document envFull emptyDisk ("missing") =
      Except.ok (VectorStore.init envFull Provider.openai) := rfl

/-- C4 amended: loading a document id for which no artifacts exist is a
silent no-op: `load_document` raises nothing and leaves the store (and
hence everything else, including the document catalog, which it never
touches) unchanged. -/
theorem C4_amended (s : VectorStore) (env : Env) (d : Disk) (documentId : String)
    (hf : d.faiss documentId = none) (hp : d.pkl documentId = none) :
    s.load_document env d documentId = Except.ok s := by
  simp [VectorStore.load_document, hf, hp]

/-- Witness for the amended C4 at a concrete store and empty disk. -/
theorem C4_witness :
    (VectorStore.init envFull Provider.google).load_document envFull emptyDisk ("nope") =
      Except.ok (VectorStore.init envFull Provider.google) :=
  C4_amended (VectorStore.init envFull Provider.google) envFull emptyDisk ("nope") rfl rfl

/-- C5: with the google backend unavailable, `_generate_embeddings` warns
(the flag is `true`) and computes the hash-seeded pseudo-embeddings, but the
`except` block has no `return`, so the function falls through to
`return np.array([], dtype=np.float32)`: the result for one input text is
the empty matrix, not a 1×768 pseudo-embedding matrix. -/
theorem C5_code_eval :
    (VectorStore.init envFull Provider.google).generate_embeddings embZero randHalf md5zero
        false ["hello"] = Except.ok ([], true) := rfl

/-- Invariant preservation along the chunking loop: every accumulated chunk
records a word count equal to its window width, and the chunk ids stay
`0 .. N-1` in emission order. -/
lemma foldl_chunkStep_inv (sizeW : Nat) (words : List String) :
    ∀ (starts : List Nat) (acc : List Chunk),
      (∀ c ∈ acc, c.word_count = c.end_word - c.start_word) →
      (acc.map (fun c => c.chunk_id) = List.range acc.length) →
      ((∀ c ∈ starts.foldl (chunkStep sizeW words) acc,
          c.word_count = c.end_word - c.start_word) ∧
       ((starts.foldl (chunkStep sizeW words) acc).map (fun c => c.chunk_id) =
          List.range (starts.foldl (chunkStep sizeW words) acc).length)) := by
  intro starts
  induction starts with
  | nil => intro acc h1 h2; exact ⟨h1, h2⟩
  | cons i is ih =>
      intro acc h1 h2
      rw [List.foldl_cons]
      apply ih
      · intro c hc
        simp only [chunkStep] at hc
        by_cases hst : pyStripTruthy (pyJoin wordSep ((words.drop i).take sizeW))
        · rw [if_pos hst] at hc
          rcases List.mem_append.mp hc with h | h
          · exact h1 c h
          · rw [List.mem_singleton] at h
            subst h
            simp only [List.length_take, List.length_drop]
            omega
        · rw [if_neg hst] at hc
          exact h1 c hc
      · simp only [chunkStep]
        by_cases hst : pyStripTruthy (pyJoin wordSep ((words.drop i).take sizeW))
        · rw [if_pos hst, List.map_append, h2, List.length_append]
          simp [List.range_succ]
        · rw [if_neg hst]
          exact h2

/-- C10: for every input text, every emitted chunk satisfies
`word_count = end_word - start_word` (the recorded window width), and the
`chunk_id` values are exactly `0 .. N-1` in emission order. -/
theorem C10_chunk_invariants (text : String) :
    (∀ c ∈ docProcessor.createChunks text, c.word_count = c.end_word - c.start_word) ∧
    ((docProcessor.createChunks text).map (fun c => c.chunk_id) =
      List.range (docProcessor.createChunks text).length) := by
  have h := foldl_chunkStep_inv (tokensToWords docProcessor.chunk_size) (pySplit text)
    (rangeBy (pySplit text).length
      (tokensToWords docProcessor.chunk_size - tokensToWords docProcessor.chunk_overlap))
    [] (by simp) (by simp)
  simpa [DocumentProcessor.createChunks, createChunksFromWords] using h

/-- Witness for C10 at a concrete three-word text and its emitted chunk. -/
theorem C10_witness :
    chunkW3.word_count = chunkW3.end_word - chunkW3.start_word ∧
    ((docProcessor.createChunks textW3).map (fun c => c.chunk_id) =
      List.range (docProcessor.createChunks textW3).length) :=
  ⟨(C10_chunk_invariants textW3).1 chunkW3 (by decide), (C10_chunk_invariants textW3).2⟩

/-- Pieces produced by `List.splitOnP` contain no separator element. -/
lemma splitOnP_pieces {α : Type} (p : α → Bool) :
    ∀ (l : List α), ∀ piece ∈ l.splitOnP p, ∀ x ∈ piece, p x = false := by
  intro l
  induction l with
  | nil =>
      intro piece hp x hx
      rw [List.splitOnP_nil] at hp
      rw [List.mem_singleton] at hp
      subst hp
      cases hx
  | cons a t ih =>
      intro piece hp x hx
      rw [List.splitOnP_cons] at hp
      by_cases ha : p a
      · rw [if_pos ha] at hp
        rcases List.mem_cons.mp hp with h | h
        · subst h; cases hx
        · exact ih piece h x hx
      · rw [if_neg ha] at hp
        obtain ⟨b, bs, hbt⟩ := List.exists_cons_of_ne_nil (List.splitOnP_ne_nil p t)
        rw [hbt, List.modifyHead_cons] at hp
        rcases List.mem_cons.mp hp with h | h
        · subst h
          rcases List.mem_cons.mp hx with h2 | h2
          · subst h2
            exact Bool.eq_false_iff.mpr ha
          · exact ih b (hbt ▸ List.mem_cons_self b bs) x h2
        · exact ih piece (hbt ▸ List.mem_cons_of_mem b h) x hx

/-- Words produced by the Python-style split are non-empty and contain no
whitespace character. -/
lemma pySplit_words (s : String) :
    ∀ w ∈ pySplit s, w ≠ "" ∧ ∀ c ∈ w.data, c.isWhitespace = false := by
  intro w hw
  unfold pySplit at hw
  rw [List.mem_filter] at hw
  obtain ⟨hmem, hne⟩ := hw
  obtain ⟨piece, hpiece, rfl⟩ := List.mem_map.mp hmem
  refine ⟨by simpa using hne, ?_⟩
  intro c hc
  exact splitOnP_pieces Char.isWhitespace s.data piece hpiece c hc

/-- A non-empty word of non-whitespace characters strips to a truthy string. -/
lemma pyStripTruthy_of_word (w : String) (hne : w ≠ "")
    (hnw : ∀ c ∈ w.data, c.isWhitespace = false) : pyStripTruthy w = true := by
  rcases hdata : w.data with _ | ⟨c, cs⟩
  · exact absurd (by cases w with | mk l => simp at hdata; simp [hdata]) hne
  · have hcw : c.isWhitespace = false := hnw c (by rw [hdata]; exact List.mem_cons_self c cs)
    simp [pyStripTruthy, hdata, hcw]

/-- Strip-truthiness distributes over string append. -/
lemma pyStripTruthy_append (a b : String) :
    pyStripTruthy (a ++ b) = (pyStripTruthy a || pyStripTruthy b) := by
  simp [pyStripTruthy, List.any_append]

/-- A window whose first word is a real word joins to a truthy chunk text. -/
lemma pyStripTruthy_join (w : String) (ws : List String) (hne : w ≠ "")
    (hnw : ∀ c ∈ w.data, c.isWhitespace = false) :
    pyStripTruthy (pyJoin wordSep (w :: ws)) = true := by
  cases ws with
  | nil => simpa [pyJoin] using pyStripTruthy_of_word w hne hnw
  | cons b bs =>
      have h : pyJoin wordSep (w :: b :: bs) = w ++ (wordSep ++ pyJoin wordSep (b :: bs)) := rfl
      rw [h, pyStripTruthy_append, pyStripTruthy_of_word w hne hnw, Bool.true_or]

/-- For a window start inside the word list, the loop body always emits one
chunk record (its text passes the strip check). -/
lemma chunkStep_emits (sizeW : Nat) (ws : List String) (acc : List Chunk) (i : Nat)
    (hi : i < ws.length) (hsz : 0 < sizeW)
    (hwords : ∀ w ∈ ws, w ≠ "" ∧ ∀ c ∈ w.data, c.isWhitespace = false) :
    chunkStep sizeW ws acc i =
      acc ++ [{ text := pyJoin wordSep ((ws.drop i).take sizeW)
                chunk_id := acc.length
                start_word := i
                end_word := min (i + sizeW) ws.length
                word_count := ((ws.drop i).take sizeW).length }] := by
  rcases hd : ws.drop i with _ | ⟨w, rest⟩
  · have hlen := congrArg List.length hd
    rw [List.length_drop] at hlen
    simp at hlen
    omega
  · have hw : w ∈ ws := List.mem_of_mem_drop (hd ▸ List.mem_cons_self w rest)
    obtain ⟨hne, hnw⟩ := hwords w hw
    have htake : (ws.drop i).take sizeW = w :: rest.take (sizeW - 1) := by
      rw [hd]
      rcases sizeW with _ | n
      · omega
      · rw [List.take_succ_cons]
        rfl
    have hst : pyStripTruthy (pyJoin wordSep ((ws.drop i).take sizeW)) = true := by
      rw [htake]
      exact pyStripTruthy_join w (rest.take (sizeW - 1)) hne hnw
    simp only [chunkStep, hst, if_true]
    rw [hd]

/-- Shape of the chunking loop over a list of in-range window starts: one
chunk per start, with the recorded start and clamped end positions. -/
lemma foldl_chunkStep_proj (ws : List String) (sizeW : Nat) (hsz : 0 < sizeW)
    (hwords : ∀ w ∈ ws, w ≠ "" ∧ ∀ c ∈ w.data, c.isWhitespace = false) :
    ∀ (starts : List Nat) (acc : List Chunk), (∀ i ∈ starts, i < ws.length) →
      ((starts.foldl (chunkStep sizeW ws) acc).length = acc.length + starts.length ∧
       (starts.foldl (chunkStep sizeW ws) acc).map (fun c => c.start_word) =
         acc.map (fun c => c.start_word) ++ starts ∧
       (starts.foldl (chunkStep sizeW ws) acc).map (fun c => c.end_word) =
         acc.map (fun c => c.end_word) ++ starts.map (fun i => min (i + sizeW) ws.length)) := by
  intro starts
  induction starts with
  | nil => intro acc _; simp
  | cons i is ih =>
      intro acc hlt
      rw [List.foldl_cons,
        chunkStep_emits sizeW ws acc i (hlt i (List.mem_cons_self i is)) hsz hwords]
      obtain ⟨ha, hb, hc⟩ := ih (acc ++ [_]) (fun j hj => hlt j (List.mem_cons_of_mem i hj))
      refine ⟨?_, ?_, ?_⟩
      · rw [ha]
        simp
        omega
      · rw [hb]
        simp
      · rw [hc]
        simp

/-- C6: with the hard-coded `chunk_size_tokens = 500` and
`chunk_overlap_tokens = 50`, chunking any 1000-word text uses a window of
384 words, an overlap of 38 words and a stride of 346, and emits exactly 3
chunks starting at words 0, 346 and 692, the last one ending at word 1000
(the clamped window ends are 384, 730 and 1000). -/
theorem C6_chunk_scenario (text : String) (h1000 : (pySplit text).length = 1000) :
    tokensToWords docProcessor.chunk_size = 384 ∧
    tokensToWords docProcessor.chunk_overlap = 38 ∧
    tokensToWords docProcessor.chunk_size - tokensToWords docProcessor.chunk_overlap = 346 ∧
    (docProcessor.createChunks text).length = 3 ∧
    (docProcessor.createChunks text).map (fun c => c.start_word) = [0, 346, 692] ∧
    (docProcessor.createChunks text).map (fun c => c.end_word) = [384, 730, 1000] ∧
    ((docProcessor.createChunks text).map (fun c => c.end_word)).getLast? = some 1000 := by
  have hwords := pySplit_words text
  have hrange : rangeBy (pySplit text).length 346 = [0, 346, 692] := by
    rw [h1000]; decide
  have hcc : docProcessor.createChunks text =
      ([0, 346, 692] : List Nat).foldl (chunkStep 384 (pySplit text)) [] := by
    show createChunksFromWords (tokensToWords 500) (tokensToWords 500 - tokensToWords 50)
      (pySplit text) = _
    rw [createChunksFromWords,
      show tokensToWords 500 = 384 from by decide,
      show (384 : Nat) - tokensToWords 50 = 346 from by decide, hrange]
  obtain ⟨ha, hb, hc⟩ := foldl_chunkStep_proj (pySplit text) 384 (by omega) hwords
    [0, 346, 692] [] (by intro i hi; fin_cases hi <;> omega)
  refine ⟨by decide, by decide, by decide, ?_, ?_, ?_, ?_⟩
  · rw [hcc, ha]; rfl
  · rw [hcc, hb]; rfl
  · rw [hcc, hc, h1000]
    decide
  · rw [hcc, hc, h1000]
    decide

/-- Witness for C6 at the concrete 1000-word text `textK`. -/
theorem C6_witness :
    tokensToWords docProcessor.chunk_size = 384 ∧
    tokensToWords docProcessor.chunk_overlap = 38 ∧
    tokensToWords docProcessor.chunk_size - tokensToWords docProcessor.chunk_overlap = 346 ∧
    (docProcessor.createChunks textK).length = 3 ∧
    (docProcessor.createChunks textK).map (fun c => c.start_word) = [0, 346, 692] ∧
    (docProcessor.createChunks textK).map (fun c => c.end_word) = [384, 730, 1000] ∧
    ((docProcessor.createChunks textK).map (fun c => c.end_word)).getLast? = some 1000 :=
  C6_chunk_scenario textK (by decide)

/-- C7 counterexample: the claim covers the orchestrator's answer paths,
but `get_follow_up_response` has no empty-results short-circuit: with a
search returning zero results it still builds an empty context and invokes
the generator (the returned flag is `true`), answering with the generator's
output instead of the fixed no-information message. -/
theorem C7_counterexample :
    (ChatManager.init envFull Provider.openai).get_follow_up_response []
      (VectorStore.init envFull Provider.openai) id embW randHalf md5zero true
      genW genCW ("q") ("doc.pdf") fmtW =
      ({ answer := "G", sources := [], context_used := some 0 }, true) := rfl

/-- C7 amended: in `get_response` (the primary answer operation), a search
returning zero results short-circuits to the fixed no-information answer
with empty sources, and the generator is not invoked;
`get_follow_up_response` performs no such check. -/
theorem C7_amended (cm : ChatManager) (store : VectorStore)
    (nrm : Vec → Vec) (emb : String → Vec) (rand : Nat → Nat → Vec)
    (md5int : String → Nat) (backendOk : Bool)
    (genChat : String → String → Except String (Option String))
    (genContent : String → Except String String)
    (query docFilename : String) (fmtScore : ℚ → String)
    (hconf : cm.configured = true)
    (hsearch : store.search nrm emb rand md5int backendOk query 5 = Except.ok []) :
    cm.get_response store nrm emb rand md5int backendOk genChat genContent
      query docFilename fmtScore =
      ({ answer := msgNoInfo, sources := [], context_used := none }, false) := by
  simp [ChatManager.get_response, hconf, hsearch]

/-- Witness for the amended C7 at a configured manager and a store with no
built index (search returns the empty result list). -/
theorem C7_witness :
    (ChatManager.init envFull Provider.openai).get_response
        (VectorStore.init envFull Provider.openai) id embW randHalf md5zero true
        genW genCW ("q") ("doc.pdf") fmtW =
      ({ answer := msgNoInfo, sources := [], context_used := none }, false) :=
  C7_amended (ChatManager.init envFull Provider.openai)
    (VectorStore.init envFull Provider.openai) id embW randHalf md5zero true
    genW genCW ("q") ("doc.pdf") fmtW rfl rfl

/-- C8 counterexample: the claim says the result record always contains
`answer`, `sources` and `context_used`; on the not-configured early return
the source's dict has no `context_used` key. -/
theorem C8_counterexample :
    ((ChatManager.init envNone Provider.openai).get_response
        (VectorStore.init envNone Provider.openai) id embW randHalf md5zero true
        genW genCW ("q") ("doc.pdf") fmtW).1.context_used = none := rfl

/-- C8 amended: `get_response` never raises past its boundary — it always
returns a record with an answer and a sources list, and whenever the
`context_used` key is absent (every non-generation path) the sources are
empty; in particular a failing search step is converted into the user-safe
caught-error answer with empty sources.  The `context_used` key itself is
present only on the generation path, not on all paths as claimed. -/
theorem C8_amended (cm : ChatManager) (store : VectorStore)
    (nrm : Vec → Vec) (emb : String → Vec) (rand : Nat → Nat → Vec)
    (md5int : String → Nat) (backendOk : Bool)
    (genChat : String → String → Except String (Option String))
    (genContent : String → Except String String)
    (query docFilename : String) (fmtScore : ℚ → String) :
    ((cm.get_response store nrm emb rand md5int backendOk genChat genContent
        query docFilename fmtScore).1.context_used = none →
      (cm.get_response store nrm emb rand md5int backendOk genChat genContent
        query docFilename fmtScore).1.sources = []) ∧
    (∀ e, cm.configured = true →
      store.search nrm emb rand md5int backendOk query 5 = Except.error e →
      (cm.get_response store nrm emb rand md5int backendOk genChat genContent
        query docFilename fmtScore).1 =
        { answer := msgCaught e, sources := [], context_used := none }) := by
  constructor
  · intro hnone
    unfold ChatManager.get_response at *
    rcases hc : cm.configured with _ | _
    · simp [hc] at *
    · simp only [hc, Bool.not_true, Bool.false_eq_true, if_false] at *
      rcases hs : store.search nrm emb rand md5int backendOk query 5 with e | res
      · simp [hs] at *
      · simp only [hs] at *
        by_cases hres : res = []
        · simp [hres] at *
        · simp only [hres, if_neg] at *
          rcases hg : generateAnswer cm genChat genContent
              (mkSystemPrompt docFilename (pyJoin paraSep (res.map (fun p => p.1.text))))
              ("Question: " ++ query) with e2 | ans
          · simp [hg] at *
          · simp [hg] at hnone ⊢
  · intro e hc hs
    simp [ChatManager.get_response, hc, hs]

/-- Witness for the amended C8: applying it at a configured manager whose
store fails the search with a dimension mismatch yields the caught-error
record with empty sources and no context count. -/
theorem C8_witness :
    ((ChatManager.init envFull Provider.openai).get_response storeMismatch id embW randHalf
        md5zero true genW genCW ("q") ("doc.pdf") fmtW).1 =
      { answer := msgCaught VSError.dimensionMismatch, sources := [], context_used := none } :=
  (C8_amended (ChatManager.init envFull Provider.openai) storeMismatch id embW randHalf
      md5zero true genW genCW ("q") ("doc.pdf") fmtW).2 VSError.dimensionMismatch rfl
    (storeMismatch_search_eval 5)

/-- C9 counterexample: the chunker's construction cannot fail — the source
`__init__` takes no chunking parameters, performs no validation and raises
nothing; it unconditionally yields the processor with `chunk_size = 500`
and `chunk_overlap = 50` (no `ConfigError` class exists in the source). -/
theorem C9_counterexample :
    DocumentProcessor.init = Except.ok docProcessor ∧
    DocumentProcessor.init ≠ Except.error ConfigError.mk := by
  constructor
  · rfl
  · intro h
    exact Except.noConfusion h

/-- C9 amended: construction hard-codes `chunk_size_tokens = 500` and
`chunk_overlap_tokens = 50`, which always satisfy
`chunk_size_tokens > chunk_overlap_tokens` and give the positive stride
346, so the condition the claimed `ConfigError` would guard against can
never arise and no validation exists at construction or per call. -/
theorem C9_amended :
    DocumentProcessor.init = Except.ok docProcessor ∧
    docProcessor.chunk_overlap < docProcessor.chunk_size ∧
    0 < tokensToWords docProcessor.chunk_size - tokensToWords docProcessor.chunk_overlap := by
  refine ⟨rfl, by decide, by decide⟩

end DocQuery
